import Mathlib

/-!
Shallow embedding of `kazoo/handlers/threading.py`: the `AsyncResult`
one-shot future and the `SequentialThreadingHandler` three-lane dispatcher,
together with theorems settling the specification claims about them.

Conventions of the embedding:

* Python objects that may be `None` are modelled as `Option` values, with
  `none` standing for Python `None`.
* `AsyncResult._exception` can hold three kinds of content: the `_NONE`
  sentinel (never exposed to users), Python `None` (written by `set`), or an
  arbitrary error object.  It is therefore modelled as
  `Option (Option ε)`: `none` is the `_NONE` sentinel, `some none` is Python
  `None`, and `some (some e)` is the error object `e`.
* Callbacks are opaque Python objects compared by `==` (identity for plain
  function objects); they are modelled by an arbitrary type `κ` with
  decidable equality.
* Methods that mutate `self` become functions from the state to a new state;
  methods that also enqueue thunks onto the completion queue of the handler
  additionally return the list of callbacks those thunks invoke (see
  `setLoopDrain` for the subtle case).
* Blocking on the condition variable is modelled by passing in the state of
  the future observed when the condition wait finishes (`sEnd`), plus, for
  `wait`, whether a `notify_all` arrived during the window.
-/

set_option autoImplicit false

namespace KazooThreading

variable {α ε κ τ : Type}

/-- State of an `AsyncResult` as set up by `__init__`:
`self.value = None`, `self._exception = _NONE`, `self._callbacks = []`.
`value : Option α` is the stored value (Python `None` is `none`);
`exc : Option (Option ε)` is `_exception` (`none` is the `_NONE` sentinel,
`some none` is Python `None`, `some (some e)` is the error object `e`);
`callbacks : List κ` is `_callbacks`. -/
structure AsyncResult (α ε κ : Type) where
  value : Option α
  exc : Option (Option ε)
  callbacks : List κ
deriving DecidableEq

/-- The freshly constructed `AsyncResult(handler)`. -/
def AsyncResult.init : AsyncResult α ε κ := ⟨none, none, []⟩

/-- Method `ready`: `return self._exception is not _NONE`. -/
def AsyncResult.ready (s : AsyncResult α ε κ) : Bool := s.exc.isSome

/-- Method `successful`: `return self._exception is None`.  True exactly when
`_exception` holds Python `None` (which is what `set` stores). -/
def AsyncResult.successful (s : AsyncResult α ε κ) : Bool :=
  match s.exc with
  | some none => true
  | _ => false

/-- Property `exception`: `if self._exception is not _NONE: return
self._exception` — and otherwise the method body ends, so Python returns
`None` implicitly.  The result is a Python value, hence `Option ε`. -/
def AsyncResult.exception (s : AsyncResult α ε κ) : Option ε :=
  match s.exc with
  | some v => v
  | none => none

/-- The loop `for callback in self._callbacks:` of `set` and `set_exception`.
Each iteration assigns the frame-local loop variable `callback` and performs
one `completion_queue.put(lambda: callback(self))`.  The fold threads the
loop-variable cell (initially unbound, hence `Option κ`) together with the
count of thunks enqueued so far. -/
def setLoopCell (cbs : List κ) : Option κ × Nat :=
  cbs.foldl (fun acc c => (some c, acc.2 + 1)) (none, 0)

/-- The callbacks invoked when the completion worker drains the thunks that
`set`/`set_exception` enqueued, in the ordinary case where the drain happens
after the enqueuing call has returned.  Every `lambda: callback(self)` is a
closure over the loop *variable* `callback` (Python closures capture
variables, not values), so all the enqueued thunks read the same cell, which
by then holds the last element of the callback list. -/
def setLoopDrain (cbs : List κ) : List κ :=
  match setLoopCell cbs with
  | (none, _) => []
  | (some c, n) => List.replicate n c

/-- Method `set(value)`: stores `value`, sets `_exception = None`, runs the
enqueue loop over `_callbacks`, and calls `notify_all` (waking the waiters is
reflected in `get`/`wait` by the end-of-wait state they observe).  Returns
the new state together with the callbacks the enqueued thunks invoke when
drained after the call returns (see `setLoopDrain`). -/
def AsyncResult.set (s : AsyncResult α ε κ) (v : Option α) :
    AsyncResult α ε κ × List κ :=
  ({ s with value := v, exc := some none }, setLoopDrain s.callbacks)

/-- Method `set_exception(exception)`: stores the exception object (which the
caller may choose to be Python `None`, hence `Option ε`), runs the same
enqueue loop, and calls `notify_all`. -/
def AsyncResult.set_exception (s : AsyncResult α ε κ) (e : Option ε) :
    AsyncResult α ε κ × List κ :=
  ({ s with exc := some e }, setLoopDrain s.callbacks)

/-- Failure outcomes of `get`: the `TimeoutError` raised at the end of the
body, or the stored error object re-raised verbatim. -/
inductive GetFail (ε : Type) where
  | timeout
  | exc (e : ε)
deriving DecidableEq

/-- Method `get(block=True, timeout=None)`.  `s` is the state of the future
when the lock is acquired; `sEnd` is its state when `self._condition.wait`
returns (only reached in the blocking branch — for a one-shot future the
state can only have gained a resolution in between).  Mirrors the body:
if `_exception is not _NONE`, return the value when `_exception is None`,
else raise it; `elif block`, wait and re-check the same way; in all
remaining paths raise `TimeoutError()`. -/
def AsyncResult.get (s : AsyncResult α ε κ) (block : Bool)
    (sEnd : AsyncResult α ε κ) : Except (GetFail ε) (Option α) :=
  match s.exc with
  | some none => Except.ok s.value
  | some (some e) => Except.error (GetFail.exc e)
  | none =>
    if block then
      match sEnd.exc with
      | some none => Except.ok sEnd.value
      | some (some e) => Except.error (GetFail.exc e)
      | none => Except.error GetFail.timeout
    else Except.error GetFail.timeout

/-- Method `get_nowait()`: `return self.get(block=False)`.  No waiting
happens, so the state observed throughout the call is `s` itself. -/
def AsyncResult.get_nowait (s : AsyncResult α ε κ) :
    Except (GetFail ε) (Option α) :=
  AsyncResult.get s false s

/-- Whether `threading.Condition.wait(timeout)` returns at all: with
`timeout=None` it returns only once a notify arrives; with a numeric timeout
it returns when notified or when the timeout elapses. -/
def condWaitTerminates (timeout : Option Nat) (notified : Bool) : Bool :=
  notified || timeout.isSome

/-- Method `wait(timeout=None)`: `self._condition.wait(timeout)` is called
unconditionally — the body never consults the state before waiting — and then
`self._exception is not _NONE` is returned.  `sEnd` is the state of the
future when the condition wait finishes, `notified` says whether a
`notify_all` arrived during the window.  The result is `none` when the call
never returns (no timeout and no notify), otherwise `some` of the readiness
it reports. -/
def AsyncResult.wait (sEnd : AsyncResult α ε κ) (timeout : Option Nat)
    (notified : Bool) : Option Bool :=
  if condWaitTerminates timeout notified then some (AsyncResult.ready sEnd)
  else none

/-- Method `rawlink(callback)`: under the condition lock, if already ready,
enqueue `lambda: callback(self)` on the completion queue (here `callback` is
the method parameter, a binding that never changes, so the thunk invokes
exactly that callback) and return without touching `_callbacks`; otherwise
append the callback unless it is already present.  Returns the new state and
the callbacks invoked by any thunks enqueued by this call. -/
def AsyncResult.rawlink [DecidableEq κ] (s : AsyncResult α ε κ) (c : κ) :
    AsyncResult α ε κ × List κ :=
  if AsyncResult.ready s then (s, [c])
  else if c ∈ s.callbacks then (s, [])
  else ({ s with callbacks := s.callbacks ++ [c] }, [])

/-- Method `unlink(callback)`: under the condition lock, a no-op when already
ready; otherwise `self._callbacks.remove(callback)` when present (removal of
the first occurrence) and a no-op when absent. -/
def AsyncResult.unlink [DecidableEq κ] (s : AsyncResult α ε κ) (c : κ) :
    AsyncResult α ε κ :=
  if AsyncResult.ready s then s
  else { s with callbacks := s.callbacks.erase c }

/-- The three lanes of the handler, naming the worker thread bound to each
queue. -/
inductive Lane where
  | completion
  | callback
  | session
deriving DecidableEq

/-- An entry of a lane queue as seen by its worker: either the `_STOP`
sentinel or a work item. -/
inductive QItem (τ : Type) where
  | stop
  | item (t : τ)
deriving DecidableEq

/-- State of a `SequentialThreadingHandler` over work items of type `τ`:
the three lane queues (holding the work items put by producers; the `_STOP`
sentinel appears only in the drain lists that `stop` hands to the workers),
the `_running` flag, and the `_workers` registry in creation order. -/
structure SequentialThreadingHandler (τ : Type) where
  callback_queue : List τ
  session_queue : List τ
  completion_queue : List τ
  running : Bool
  workers : List Lane
deriving DecidableEq

/-- The freshly constructed handler: three empty queues, `_running = False`,
`_workers = []` (the `atexit.register(self.stop)` hook is outside the
in-process state). -/
def SequentialThreadingHandler.init : SequentialThreadingHandler τ :=
  ⟨[], [], [], false, []⟩

/-- Method `start()`: under `_state_change`, a no-op when already running;
otherwise one worker is created per queue, iterating over
`(completion_queue, callback_queue, session_queue)` in that order and
appending each worker to `_workers`, and `_running` becomes true. -/
def SequentialThreadingHandler.start (h : SequentialThreadingHandler τ) :
    SequentialThreadingHandler τ :=
  if h.running then h
  else { h with
         workers := h.workers ++ [Lane.completion, Lane.callback, Lane.session],
         running := true }

/-- Python `list.pop()`: removes and returns the last element. -/
def pyPop (l : List Lane) : Option Lane × List Lane :=
  (l.getLast?, l.dropLast)

/-- The loop `while self._workers: worker = self._workers.pop();
worker.join()`: the sequence of workers joined, in join order.  The first
argument is fuel, instantiated with the length of the list. -/
def joinLoop : Nat → List Lane → List Lane
  | 0, _ => []
  | Nat.succ n, ws =>
    match pyPop ws with
    | (none, _) => []
    | (some w, rest) => w :: joinLoop n rest

/-- Everything observable about one `stop()` call: the handler state it
leaves behind, the order in which it joined the workers, and the final
contents of each lane queue as its worker will drain it (the items that were
queued, followed by the `_STOP` sentinel). -/
structure StopResult (τ : Type) where
  handler : SequentialThreadingHandler τ
  joinOrder : List Lane
  completionDrain : List (QItem τ)
  callbackDrain : List (QItem τ)
  sessionDrain : List (QItem τ)
deriving DecidableEq

/-- Method `stop()`: under `_state_change`, a no-op when not running;
otherwise it clears `_running`, puts `_STOP` on each of the three queues,
calls `self._workers.reverse()` and then runs the pop-and-join loop (popping
from the end of the reversed list), and finally rebinds the three queue
attributes to fresh empty queues. -/
def SequentialThreadingHandler.stop (h : SequentialThreadingHandler τ) :
    StopResult τ :=
  if h.running then
    { handler := { callback_queue := [], session_queue := [],
                   completion_queue := [], running := false, workers := [] },
      joinOrder := joinLoop h.workers.reverse.length h.workers.reverse,
      completionDrain := h.completion_queue.map QItem.item ++ [QItem.stop],
      callbackDrain := h.callback_queue.map QItem.item ++ [QItem.stop],
      sessionDrain := h.session_queue.map QItem.item ++ [QItem.stop] }
  else
    { handler := h, joinOrder := [], completionDrain := [],
      callbackDrain := [], sessionDrain := [] }

/-- The worker loop `thread_worker`: pop items in order, executing each one,
and terminate (without executing anything further) at the first `_STOP`.
Returns the work items actually executed. -/
def workerRun : List (QItem τ) → List τ
  | [] => []
  | QItem.stop :: _ => []
  | QItem.item t :: rest => t :: workerRun rest

/-- A callback descriptor as consumed by `dispatch_callback`: the duck-typed
object carrying `type`, `func` and `args`. -/
structure CallbackObj (φ ρ : Type) where
  type : String
  func : φ
  args : List ρ

/-- Method `dispatch_callback(callback)`: when `callback.type` equals the
string `"session"`,
put `lambda: callback.func(*callback.args)` on the session queue, else put it
on the callback queue.  The thunk closes over the method parameter, so it is
modelled by the pair of the function and its argument tuple.  No other field
of the handler is consulted or changed. -/
def SequentialThreadingHandler.dispatch_callback {φ ρ : Type}
    (h : SequentialThreadingHandler (φ × List ρ)) (cb : CallbackObj φ ρ) :
    SequentialThreadingHandler (φ × List ρ) :=
  if cb.type = "session" then
    { h with session_queue := h.session_queue ++ [(cb.func, cb.args)] }
  else
    { h with callback_queue := h.callback_queue ++ [(cb.func, cb.args)] }

/-- C1, code evaluated at the failing input: two distinct callbacks `0` and
`1` are registered on a pending future, then `set` resolves it.  Both thunks
that `set` enqueues close over the shared loop variable, so when the
completion worker drains them after `set` returns it invokes callback `1`
twice and callback `0` never — not one invocation per distinct registered
callback, as the claim states. -/
theorem C1_set_enqueues_last_callback_twice :
    (((KazooThreading.AsyncResult.rawlink
        ((KazooThreading.AsyncResult.rawlink
          (KazooThreading.AsyncResult.init : KazooThreading.AsyncResult Nat Nat Nat) 0).1)
        1).1).callbacks = [0, 1]) ∧
    ((KazooThreading.AsyncResult.set
        ((KazooThreading.AsyncResult.rawlink
          ((KazooThreading.AsyncResult.rawlink
            (KazooThreading.AsyncResult.init : KazooThreading.AsyncResult Nat Nat Nat) 0).1)
          1).1) (some 7)).2 = [1, 1]) ∧
    ((KazooThreading.AsyncResult.set
        ((KazooThreading.AsyncResult.rawlink
          ((KazooThreading.AsyncResult.rawlink
            (KazooThreading.AsyncResult.init : KazooThreading.AsyncResult Nat Nat Nat) 0).1)
          1).1) (some 7)).2 ≠ [0, 1]) := by
  decide

/-- C2, counterexample to the claim as stated: after `set(1)` the future is
ready with value `1`, yet a second call `set(2)` changes the stored value to
`2` — a later `set` does not leave the previously stored outcome
unchanged. -/
theorem C2_second_set_overwrites :
    (KazooThreading.AsyncResult.ready
      ((KazooThreading.AsyncResult.set
        (KazooThreading.AsyncResult.init : KazooThreading.AsyncResult Nat Nat Nat)
        (some 1)).1) = true) ∧
    (((KazooThreading.AsyncResult.set
        (KazooThreading.AsyncResult.init : KazooThreading.AsyncResult Nat Nat Nat)
        (some 1)).1).value = some 1) ∧
    (((KazooThreading.AsyncResult.set
        ((KazooThreading.AsyncResult.set
          (KazooThreading.AsyncResult.init : KazooThreading.AsyncResult Nat Nat Nat)
          (some 1)).1) (some 2)).1).value = some 2) := by
  decide

/-- C2 amended: once an `AsyncResult` is ready (its `_exception` field is
set), `rawlink` and `unlink` leave the whole state — in particular the
stored value and error — unchanged, and the read-only operations have no
state to change; however `set` and `set_exception` are not guarded and a
later call to either silently overwrites the stored outcome. -/
theorem C2_ready_outcome_stable_except_setters {α ε κ : Type} [DecidableEq κ]
    (v w : Option α) (e f : Option ε) (cbs : List κ) (c : κ) :
    ((KazooThreading.AsyncResult.rawlink
        (⟨v, some e, cbs⟩ : KazooThreading.AsyncResult α ε κ) c).1 =
      ⟨v, some e, cbs⟩) ∧
    (KazooThreading.AsyncResult.unlink
        (⟨v, some e, cbs⟩ : KazooThreading.AsyncResult α ε κ) c =
      ⟨v, some e, cbs⟩) ∧
    ((KazooThreading.AsyncResult.set
        (⟨v, some e, cbs⟩ : KazooThreading.AsyncResult α ε κ) w).1.value = w) ∧
    ((KazooThreading.AsyncResult.set
        (⟨v, some e, cbs⟩ : KazooThreading.AsyncResult α ε κ) w).1.exc =
      some none) ∧
    ((KazooThreading.AsyncResult.set_exception
        (⟨v, some e, cbs⟩ : KazooThreading.AsyncResult α ε κ) f).1.exc =
      some f) := by
  refine ⟨?_, ?_, rfl, rfl, rfl⟩ <;>
    simp [KazooThreading.AsyncResult.rawlink, KazooThreading.AsyncResult.unlink,
      KazooThreading.AsyncResult.ready]

/-- C3, counterexample to the claim as stated: calling `set_exception` with
the error object Python `None` makes `successful()` return true, because
`successful` tests `self._exception is None` and `set` marks success by
storing exactly `None`. -/
theorem C3_set_exception_none_reports_success :
    KazooThreading.AsyncResult.successful
      ((KazooThreading.AsyncResult.set_exception
        (KazooThreading.AsyncResult.init : KazooThreading.AsyncResult Nat Nat Nat)
        none).1) = true := by
  decide

/-- C3 amended: `successful()` returns true exactly when the stored
`_exception` is Python `None`.  Hence it is false before any resolution,
true after `set`, and false after `set_exception` with any non-`None` error
object; but `set_exception(None)` makes it report success. -/
theorem C3_successful_iff_exception_is_none {α ε κ : Type} (v : Option α)
    (e : ε) (cbs : List κ) (s : KazooThreading.AsyncResult α ε κ) :
    (KazooThreading.AsyncResult.successful
      (KazooThreading.AsyncResult.init : KazooThreading.AsyncResult α ε κ) = false) ∧
    (KazooThreading.AsyncResult.successful
      (⟨v, none, cbs⟩ : KazooThreading.AsyncResult α ε κ) = false) ∧
    (KazooThreading.AsyncResult.successful
      ((KazooThreading.AsyncResult.set s v).1) = true) ∧
    (KazooThreading.AsyncResult.successful
      ((KazooThreading.AsyncResult.set_exception s (some e)).1) = false) ∧
    (∀ t : KazooThreading.AsyncResult α ε κ,
      KazooThreading.AsyncResult.successful t = true ↔ t.exc = some none) := by
  refine ⟨rfl, rfl, rfl, rfl, ?_⟩
  intro t
  rcases t with ⟨tv, texc, tcb⟩
  rcases texc with _ | texc
  · simp [KazooThreading.AsyncResult.successful]
  · rcases texc with _ | te <;>
      simp [KazooThreading.AsyncResult.successful]

/-- C4: `get` returns the stored value when the future is resolved with a
value, raises the stored error object verbatim when it is resolved with an
error, raises `TimeoutError` exactly when the future is still pending at the
end of the wait window (the entry state for the non-blocking and
already-ready cases, the end-of-wait state for the blocking pending case —
so `get(block=False)` on a pending future times out immediately), and
`get_nowait` behaves identically to `get(block=False)`. -/
theorem C4_get_returns_value_or_error_or_timeout {α ε κ : Type}
    (v w : Option α) (e f : ε) (cbs cbs2 : List κ) (b : Bool) :
    (∀ sEnd : KazooThreading.AsyncResult α ε κ,
      KazooThreading.AsyncResult.get
        (⟨v, some none, cbs⟩ : KazooThreading.AsyncResult α ε κ) b sEnd =
        Except.ok v) ∧
    (∀ sEnd : KazooThreading.AsyncResult α ε κ,
      KazooThreading.AsyncResult.get
        (⟨v, some (some e), cbs⟩ : KazooThreading.AsyncResult α ε κ) b sEnd =
        Except.error (KazooThreading.GetFail.exc e)) ∧
    (∀ sEnd : KazooThreading.AsyncResult α ε κ,
      KazooThreading.AsyncResult.get
        (⟨v, none, cbs⟩ : KazooThreading.AsyncResult α ε κ) false sEnd =
        Except.error KazooThreading.GetFail.timeout) ∧
    (KazooThreading.AsyncResult.get
      (⟨v, none, cbs⟩ : KazooThreading.AsyncResult α ε κ) true ⟨w, none, cbs2⟩ =
      Except.error KazooThreading.GetFail.timeout) ∧
    (KazooThreading.AsyncResult.get
      (⟨v, none, cbs⟩ : KazooThreading.AsyncResult α ε κ) true
      ⟨w, some none, cbs2⟩ = Except.ok w) ∧
    (KazooThreading.AsyncResult.get
      (⟨v, none, cbs⟩ : KazooThreading.AsyncResult α ε κ) true
      ⟨w, some (some f), cbs2⟩ =
      Except.error (KazooThreading.GetFail.exc f)) ∧
    (∀ (s sEnd : KazooThreading.AsyncResult α ε κ) (b2 : Bool),
      KazooThreading.AsyncResult.get s b2 sEnd =
          Except.error KazooThreading.GetFail.timeout ↔
        (if KazooThreading.AsyncResult.ready s then s
         else if b2 then sEnd else s).exc = none) ∧
    (∀ (s sEnd : KazooThreading.AsyncResult α ε κ),
      KazooThreading.AsyncResult.get_nowait s =
        KazooThreading.AsyncResult.get s false sEnd) := by
  refine ⟨fun _ => rfl, fun _ => rfl, fun _ => rfl, rfl, rfl, rfl, ?_, ?_⟩
  · intro s sEnd b2
    rcases s with ⟨sv, sexc, scb⟩
    rcases sexc with _ | sexc
    · cases b2
      · simp [KazooThreading.AsyncResult.get, KazooThreading.AsyncResult.ready]
      · rcases sEnd with ⟨ev, eexc, ecb⟩
        rcases eexc with _ | eexc
        · simp [KazooThreading.AsyncResult.get, KazooThreading.AsyncResult.ready]
        · rcases eexc with _ | ee <;>
            simp [KazooThreading.AsyncResult.get, KazooThreading.AsyncResult.ready]
    · rcases sexc with _ | se <;>
        simp [KazooThreading.AsyncResult.get, KazooThreading.AsyncResult.ready]
  · intro s sEnd
    rcases s with ⟨sv, sexc, scb⟩
    rcases sexc with _ | sexc
    · simp [KazooThreading.AsyncResult.get_nowait, KazooThreading.AsyncResult.get]
    · rcases sexc with _ | se <;>
        simp [KazooThreading.AsyncResult.get_nowait, KazooThreading.AsyncResult.get]

/-- C5, code evaluated at the failing input: the future is already resolved
(via `set(1)`, so no further `notify_all` will arrive), yet `wait` with no
timeout never returns because the body calls `Condition.wait` without first
checking readiness; with a finite timeout it returns true only after sleeping
out the whole timeout.  The claim says `wait` on an already-ready future
returns true without waiting out the timeout. -/
theorem C5_wait_blocks_on_ready_future :
    (KazooThreading.AsyncResult.ready
      ((KazooThreading.AsyncResult.set
        (KazooThreading.AsyncResult.init : KazooThreading.AsyncResult Nat Nat Nat)
        (some 1)).1) = true) ∧
    (KazooThreading.AsyncResult.wait
      ((KazooThreading.AsyncResult.set
        (KazooThreading.AsyncResult.init : KazooThreading.AsyncResult Nat Nat Nat)
        (some 1)).1) none false = none) ∧
    (KazooThreading.AsyncResult.wait
      ((KazooThreading.AsyncResult.set
        (KazooThreading.AsyncResult.init : KazooThreading.AsyncResult Nat Nat Nat)
        (some 1)).1) (some 5) false = some true) := by
  decide

/-- C6: on a ready future, `rawlink` enqueues exactly one thunk invoking the
given callback (the thunk closes over the immutable method parameter, so it
calls that specific callback) and leaves the registration list — indeed the
whole state — unchanged; on a pending future it enqueues nothing and appends
the callback unless that same callback is already present, so a second
registration of the same callback is a no-op. -/
theorem C6_rawlink_dispatch_or_idempotent_append {α ε κ : Type}
    [DecidableEq κ] (v : Option α) (e : Option ε) (cbs : List κ) (c : κ) :
    (KazooThreading.AsyncResult.rawlink
        (⟨v, some e, cbs⟩ : KazooThreading.AsyncResult α ε κ) c =
      (⟨v, some e, cbs⟩, [c])) ∧
    (KazooThreading.AsyncResult.rawlink
        (⟨v, none, cbs⟩ : KazooThreading.AsyncResult α ε κ) c =
      (⟨v, none, if c ∈ cbs then cbs else cbs ++ [c]⟩, [])) ∧
    ((KazooThreading.AsyncResult.rawlink
        ((KazooThreading.AsyncResult.rawlink
          (⟨v, none, cbs⟩ : KazooThreading.AsyncResult α ε κ) c).1) c) =
      ((KazooThreading.AsyncResult.rawlink
          (⟨v, none, cbs⟩ : KazooThreading.AsyncResult α ε κ) c).1, [])) := by
  refine ⟨?_, ?_, ?_⟩
  · simp [KazooThreading.AsyncResult.rawlink, KazooThreading.AsyncResult.ready]
  · by_cases hc : c ∈ cbs <;>
      simp [KazooThreading.AsyncResult.rawlink, KazooThreading.AsyncResult.ready, hc]
  · by_cases hc : c ∈ cbs <;>
      simp [KazooThreading.AsyncResult.rawlink, KazooThreading.AsyncResult.ready, hc]

/-- C7, counterexample to the claim as stated: after `start` the worker
registry is `[completion, callback, session]` in creation order, and `stop`
joins them in that same creation order — `self._workers.reverse()` followed
by the pop-from-the-end loop restores the original order — not in the
reverse of the creation order. -/
theorem C7_stop_joins_in_creation_order_example :
    ((KazooThreading.SequentialThreadingHandler.start
      (KazooThreading.SequentialThreadingHandler.init :
        KazooThreading.SequentialThreadingHandler Nat)).workers =
      [KazooThreading.Lane.completion, KazooThreading.Lane.callback,
       KazooThreading.Lane.session]) ∧
    ((KazooThreading.SequentialThreadingHandler.stop
      (KazooThreading.SequentialThreadingHandler.start
        (KazooThreading.SequentialThreadingHandler.init :
          KazooThreading.SequentialThreadingHandler Nat))).joinOrder =
      [KazooThreading.Lane.completion, KazooThreading.Lane.callback,
       KazooThreading.Lane.session]) ∧
    ((KazooThreading.SequentialThreadingHandler.stop
      (KazooThreading.SequentialThreadingHandler.start
        (KazooThreading.SequentialThreadingHandler.init :
          KazooThreading.SequentialThreadingHandler Nat))).joinOrder ≠
      List.reverse
        [KazooThreading.Lane.completion, KazooThreading.Lane.callback,
         KazooThreading.Lane.session]) := by
  decide

/-- Helper: a lane worker executes exactly the items queued ahead of the
`_STOP` sentinel; whatever sits behind the sentinel is discarded. -/
theorem workerRun_discards_behind_stop {τ : Type} (l : List τ)
    (extra : List (KazooThreading.QItem τ)) :
    KazooThreading.workerRun
      (l.map KazooThreading.QItem.item ++ KazooThreading.QItem.stop :: extra) = l := by
  induction l with
  | nil => rfl
  | cons x xs ih => simpa [KazooThreading.workerRun] using ih

/-- C7 amended: `stop()` on a running dispatcher pushes one `_STOP` marker
onto each of the three lanes (each worker drains its queued items followed by
the marker, and anything queued behind the marker is discarded rather than
executed), joins the three workers in the order `start()` created them (the
registry is reversed and then popped from the end, which restores creation
order), replaces each lane with a fresh empty queue, empties the worker
registry, and marks the dispatcher stopped. -/
theorem C7_stop_markers_joins_fresh_queues {τ : Type}
    (cq sq compq : List τ) (extra : List (KazooThreading.QItem τ)) :
    ((KazooThreading.SequentialThreadingHandler.start
      (⟨cq, sq, compq, false, []⟩ :
        KazooThreading.SequentialThreadingHandler τ)).workers =
      [KazooThreading.Lane.completion, KazooThreading.Lane.callback,
       KazooThreading.Lane.session]) ∧
    ((KazooThreading.SequentialThreadingHandler.stop
      (KazooThreading.SequentialThreadingHandler.start
        (⟨cq, sq, compq, false, []⟩ :
          KazooThreading.SequentialThreadingHandler τ))).completionDrain =
      compq.map KazooThreading.QItem.item ++ [KazooThreading.QItem.stop]) ∧
    ((KazooThreading.SequentialThreadingHandler.stop
      (KazooThreading.SequentialThreadingHandler.start
        (⟨cq, sq, compq, false, []⟩ :
          KazooThreading.SequentialThreadingHandler τ))).callbackDrain =
      cq.map KazooThreading.QItem.item ++ [KazooThreading.QItem.stop]) ∧
    ((KazooThreading.SequentialThreadingHandler.stop
      (KazooThreading.SequentialThreadingHandler.start
        (⟨cq, sq, compq, false, []⟩ :
          KazooThreading.SequentialThreadingHandler τ))).sessionDrain =
      sq.map KazooThreading.QItem.item ++ [KazooThreading.QItem.stop]) ∧
    ((KazooThreading.SequentialThreadingHandler.stop
      (KazooThreading.SequentialThreadingHandler.start
        (⟨cq, sq, compq, false, []⟩ :
          KazooThreading.SequentialThreadingHandler τ))).joinOrder =
      (KazooThreading.SequentialThreadingHandler.start
        (⟨cq, sq, compq, false, []⟩ :
          KazooThreading.SequentialThreadingHandler τ)).workers) ∧
    ((KazooThreading.SequentialThreadingHandler.stop
      (KazooThreading.SequentialThreadingHandler.start
        (⟨cq, sq, compq, false, []⟩ :
          KazooThreading.SequentialThreadingHandler τ))).handler =
      (⟨[], [], [], false, []⟩ : KazooThreading.SequentialThreadingHandler τ)) ∧
    (KazooThreading.workerRun
      (compq.map KazooThreading.QItem.item ++
        KazooThreading.QItem.stop :: extra) = compq) := by
  refine ⟨rfl, ?_, ?_, ?_, rfl, ?_, workerRun_discards_behind_stop compq extra⟩ <;>
    simp [KazooThreading.SequentialThreadingHandler.start,
      KazooThreading.SequentialThreadingHandler.stop]

/-- C8: `dispatch_callback` appends the invocation (the dispatched function
together with its argument tuple) to the session lane exactly when the
category tag equals `"session"` and to the generic callback lane in every
other case, touches no other queue and neither the running flag nor the
worker registry, and is a total function whose behavior is the same whether
the dispatcher is running or stopped. -/
theorem C8_dispatch_routes_by_category {φ ρ : Type}
    (h : KazooThreading.SequentialThreadingHandler (φ × List ρ))
    (cb : KazooThreading.CallbackObj φ ρ) (b : Bool) :
    ((KazooThreading.SequentialThreadingHandler.dispatch_callback h cb).session_queue =
        h.session_queue ++ [(cb.func, cb.args)] ↔ cb.type = "session") ∧
    ((KazooThreading.SequentialThreadingHandler.dispatch_callback h cb).callback_queue =
        h.callback_queue ++ [(cb.func, cb.args)] ↔ ¬ cb.type = "session") ∧
    ((KazooThreading.SequentialThreadingHandler.dispatch_callback h cb).completion_queue =
      h.completion_queue) ∧
    ((KazooThreading.SequentialThreadingHandler.dispatch_callback h cb).running =
      h.running) ∧
    ((KazooThreading.SequentialThreadingHandler.dispatch_callback h cb).workers =
      h.workers) ∧
    (KazooThreading.SequentialThreadingHandler.dispatch_callback
        { h with running := b } cb =
      { KazooThreading.SequentialThreadingHandler.dispatch_callback h cb with
        running := b }) := by
  by_cases hs : cb.type = "session" <;>
    simp [KazooThreading.SequentialThreadingHandler.dispatch_callback, hs]

/-- C9: `start()` while already running and `stop()` while already stopped
are no-ops — the second call leaves the running flag, the worker registry and
all three lane queues unchanged, spawns no duplicate workers, joins nothing,
and always returns (no error), shown both as direct no-op equations on an
already-running or already-stopped state and as idempotence of
`start`/`stop`. -/
theorem C9_start_stop_idempotent {τ : Type}
    (h : KazooThreading.SequentialThreadingHandler τ) (cq sq compq : List τ)
    (ws : List KazooThreading.Lane) :
    (KazooThreading.SequentialThreadingHandler.start
      (⟨cq, sq, compq, true, ws⟩ :
        KazooThreading.SequentialThreadingHandler τ) = ⟨cq, sq, compq, true, ws⟩) ∧
    (KazooThreading.SequentialThreadingHandler.stop
      (⟨cq, sq, compq, false, ws⟩ :
        KazooThreading.SequentialThreadingHandler τ) =
      ⟨⟨cq, sq, compq, false, ws⟩, [], [], [], []⟩) ∧
    (KazooThreading.SequentialThreadingHandler.start
      (KazooThreading.SequentialThreadingHandler.start h) =
      KazooThreading.SequentialThreadingHandler.start h) ∧
    ((KazooThreading.SequentialThreadingHandler.start
      (KazooThreading.SequentialThreadingHandler.start h)).workers =
      (KazooThreading.SequentialThreadingHandler.start h).workers) ∧
    ((KazooThreading.SequentialThreadingHandler.stop
      ((KazooThreading.SequentialThreadingHandler.stop h).handler)).handler =
      (KazooThreading.SequentialThreadingHandler.stop h).handler) ∧
    ((KazooThreading.SequentialThreadingHandler.stop
      ((KazooThreading.SequentialThreadingHandler.stop h).handler)).joinOrder =
      []) := by
  cases hr : h.running <;>
    simp [KazooThreading.SequentialThreadingHandler.start,
      KazooThreading.SequentialThreadingHandler.stop, hr]

/-- C10: the `exception` property returns the same sentinel `None` both on a
pending future and on one resolved with a value (so the two cases cannot be
told apart through this accessor alone), and it returns a non-`None` object
exactly when `set_exception` stored a non-`None` error. -/
theorem C10_exception_none_for_pending_and_value {α ε κ : Type}
    (v : Option α) (cbs : List κ) (e : ε)
    (s : KazooThreading.AsyncResult α ε κ) :
    (KazooThreading.AsyncResult.exception
      (KazooThreading.AsyncResult.init : KazooThreading.AsyncResult α ε κ) =
      none) ∧
    (KazooThreading.AsyncResult.exception
      (⟨v, none, cbs⟩ : KazooThreading.AsyncResult α ε κ) = none) ∧
    (KazooThreading.AsyncResult.exception
      ((KazooThreading.AsyncResult.set s v).1) = none) ∧
    (KazooThreading.AsyncResult.exception
      (⟨v, none, cbs⟩ : KazooThreading.AsyncResult α ε κ) =
      KazooThreading.AsyncResult.exception
        ((KazooThreading.AsyncResult.set s v).1)) ∧
    (KazooThreading.AsyncResult.exception
      ((KazooThreading.AsyncResult.set_exception s (some e)).1) = some e) ∧
    (KazooThreading.AsyncResult.exception
      ((KazooThreading.AsyncResult.set_exception s none).1) = none) ∧
    (∀ t : KazooThreading.AsyncResult α ε κ,
      (∃ x : ε, KazooThreading.AsyncResult.exception t = some x) ↔
        (∃ x : ε, t.exc = some (some x))) := by
  refine ⟨rfl, rfl, rfl, rfl, rfl, rfl, ?_⟩
  intro t
  rcases t with ⟨tv, texc, tcb⟩
  rcases texc with _ | texc
  · simp [KazooThreading.AsyncResult.exception]
  · rcases texc with _ | te <;>
      simp [KazooThreading.AsyncResult.exception]

end KazooThreading
